import Mathlib

/-!
Verification of the timer / session-recovery model of the my-planner
repository (`pages_timer.py` and its data-access layer `database.py`).

The timer logic of `_render_timer_dashboard` and `render_timer_page` is
embedded shallowly: the Streamlit session state becomes `TimerState`,
wall-clock instants and durations are exact rationals (seconds), and every
button handler becomes a branch of the step function `timerStep`, guarded
exactly as the corresponding button is guarded in the source (a button that
is not rendered yields `none`).

The session-store functions `db.get_active_timer`, `db.save_active_timer`
and `db.delete_active_timer` are called by `pages_timer.py` but are not
defined in `src/database.py`; they are modelled from the spec (Section 6:
load / upsert-by-user_id / delete) over an association list of rows.
-/

/-- Python `int(x)` on a real value: truncation toward zero. -/
def pyInt (q : ℚ) : ℤ :=
  if 0 ≤ q then ⌊q⌋ else ⌈q⌉

/-- Python `round(x)` to an integer: round half to even (exact-arithmetic model). -/
def pyRoundHalfEven (x : ℚ) : ℤ :=
  if x - ⌊x⌋ < 1/2 then ⌊x⌋
  else if 1/2 < x - ⌊x⌋ then ⌊x⌋ + 1
  else if Even ⌊x⌋ then ⌊x⌋ else ⌊x⌋ + 1

/-- Python `round(x, 2)`: round to two decimal places, half to even. -/
def pyRound2 (x : ℚ) : ℚ :=
  (pyRoundHalfEven (x * 100) : ℚ) / 100

/-- Timer mode, the `mode_str` value of the source: `"stopwatch"` or `"pomodoro"`. -/
inductive Mode where
  | stopwatch
  | pomodoro
deriving DecidableEq, Repr

/-- One persisted active-timer row, in the argument order of
`db.save_active_timer(user_id, task_id, start_time, paused_elapsed, is_running,
mode, pomodoro_minutes, subtask_id)` (the `user_id` is the row key, kept
outside).  `start_time` is the ISO timestamp string of the source, modelled as
an optional instant (the empty string saved while paused becomes `none`). -/
structure Snapshot where
  task_id : Nat
  start_time : Option ℚ
  paused_elapsed : ℚ
  is_running : Bool
  mode : Mode
  pomodoro_minutes : Nat
  subtask_id : Option Nat
deriving DecidableEq, Repr

/-- The timer-relevant Streamlit session state of `pages_timer.py`.
`timer_subtask_id` distinguishes a key that is absent (`none`) from one that
is set to Python `None` (`some none`), because the source reads it both with
and without a fallback default.  `pomodoro_minutes` is `none` while the key is
unset (the source then defaults it to 25). -/
structure TimerState where
  timer_running : Bool
  timer_start : Option ℚ
  timer_paused_elapsed : ℚ
  timer_task_id : Option Nat
  timer_subtask_id : Option (Option Nat)
  pomodoro_minutes : Option Nat
  db_synced : Bool
deriving DecidableEq, Repr

/-- The session state right after the initialisation block of
`render_timer_page` on a fresh session (lines 149-156 of the source). -/
def initTimerState : TimerState :=
  { timer_running := false
    timer_start := none
    timer_paused_elapsed := 0
    timer_task_id := none
    timer_subtask_id := none
    pomodoro_minutes := none
    db_synced := false }

/-- `pom_mins = st.session_state.get('pomodoro_minutes', 25)`. -/
def pomMins (s : TimerState) : Nat :=
  s.pomodoro_minutes.getD 25

/-- The elapsed-time computation of `_render_timer_dashboard` (source lines
361-365): `paused + (now - start)` while a running interval is open, the
banked `paused` value otherwise.  Note the source applies no clamping to the
difference `now - start`. -/
def elapsed (s : TimerState) (now : ℚ) : ℚ :=
  match s.timer_running, s.timer_start with
  | true, some start => s.timer_paused_elapsed + (now - start)
  | _, _ => s.timer_paused_elapsed

/-- Follows the spec's words, for comparison with the source's `elapsed`:
`elapsed(snapshot, now) = if is_running then paused_elapsed_seconds +
max(0, now - start_time) else paused_elapsed_seconds`. -/
def spec_elapsed (s : TimerState) (now : ℚ) : ℚ :=
  match s.timer_running, s.timer_start with
  | true, some start => s.timer_paused_elapsed + max 0 (now - start)
  | _, _ => s.timer_paused_elapsed

/-- One append-only time-log row, in the keyword-argument order of
`db.add_time_log` as called from the `do_save` block of the source. -/
structure TimeLogEntry where
  user_id : Nat
  task_id : Nat
  subtask_id : Option Nat
  duration_minutes : ℚ
  log_date : String
  note : String
  source : String
deriving DecidableEq, Repr

/-- The Session Store contents: one association list of `(user_id, snapshot)`
rows, the shape the spec's at-most-one-row-per-user invariant is about. -/
abbrev Store := List (Nat × Snapshot)

/-- Modelled from the spec: `db.save_active_timer` is called by
`pages_timer.py` but not defined in `src/database.py`; the spec (Section 6)
specifies `save_snapshot(user_id, Snapshot) -> Unit` as an upsert keyed by
`user_id`: an existing row for the user is overwritten in place, otherwise a
new row is inserted. -/
def save_active_timer (store : Store) (uid : Nat) (snap : Snapshot) : Store :=
  if store.any (fun r => r.1 = uid) then
    store.map (fun r => if r.1 = uid then (uid, snap) else r)
  else
    store ++ [(uid, snap)]

/-- Modelled from the spec: `db.delete_active_timer` is called by
`pages_timer.py` but not defined in `src/database.py`; the spec (Section 6)
specifies `delete_snapshot(user_id) -> Unit`, a no-op if absent. -/
def delete_active_timer (store : Store) (uid : Nat) : Store :=
  store.filter (fun r => r.1 ≠ uid)

/-- Modelled from the spec: `db.get_active_timer` is called by
`pages_timer.py` but not defined in `src/database.py`; the spec (Section 6)
specifies `load_snapshot(user_id) -> Snapshot | None`. -/
def get_active_timer (store : Store) (uid : Nat) : Option Snapshot :=
  (store.find? (fun r => r.1 = uid)).map (fun r => r.2)

/-- The DB-sync block of `render_timer_page` (source lines 158-170): when a
snapshot row exists and the session is not yet synced, every timer-relevant
session field is overwritten from the row; with no row the session keeps the
fresh-session defaults of `initTimerState`. -/
def syncFromDb (snap : Option Snapshot) : TimerState :=
  match snap with
  | none => initTimerState
  | some t =>
      { timer_running := t.is_running
        timer_start := t.start_time
        timer_paused_elapsed := t.paused_elapsed
        timer_task_id := some t.task_id
        timer_subtask_id := some t.subtask_id
        pomodoro_minutes := some t.pomodoro_minutes
        db_synced := true }

/-- A fresh process or page load: query the store, then run the sync block. -/
def freshLoad (store : Store) (uid : Nat) : TimerState :=
  syncFromDb (get_active_timer store uid)

/-- The user interactions of the timer dashboard: the five buttons, plus the
custom-pomodoro-minutes number input (source lines 331-357). -/
inductive TimerAction where
  | startBtn
  | pauseBtn
  | resumeBtn
  | stopBtn
  | resetBtn
  | setMinutes (custom : Nat)
deriving DecidableEq, Repr

/-- The `do_save` block of `_render_timer_dashboard` (source lines 486-520):
delete the snapshot row, append one time-log entry whose duration is
`round(final_elapsed / 60, 2)` minutes, and reset the session timer fields. -/
def doSave (uid : Nat) (s : TimerState) (store : Store) (logs : List TimeLogEntry)
    (finalElapsed : ℚ) (sel : Nat) (selSub : Option Nat) (today : String) :
    TimerState × Store × List TimeLogEntry :=
  let entry : TimeLogEntry :=
    { user_id := uid
      task_id := s.timer_task_id.getD sel
      subtask_id := s.timer_subtask_id.getD selSub
      duration_minutes := pyRound2 (finalElapsed / 60)
      log_date := today
      note := "Timer session"
      source := "timer" }
  ({ s with timer_running := false
            timer_start := none
            timer_paused_elapsed := 0
            db_synced := false },
   delete_active_timer store uid,
   logs ++ [entry])

/-- One user interaction on the timer dashboard, as handled by
`_render_timer_dashboard`.  `sel` and `selSub` are the current task/subtask
selections of the widgets, `uiMode` the mode radio, `today` the log date.
A button that the source does not render in the given state (its handler is
unreachable) yields `none`.  The guards are the source's own: buttons are
chosen on `timer_running` and on `int(elapsed) == 0` (lines 402, 403, 450),
and the custom-minutes handler fires only on a changed value (line 340)
and persists only under the condition of line 344. -/
def timerStep (uid : Nat) (s : TimerState) (store : Store)
    (logs : List TimeLogEntry) (a : TimerAction) (now : ℚ) (sel : Nat)
    (selSub : Option Nat) (uiMode : Mode) (today : String) :
    Option (TimerState × Store × List TimeLogEntry) :=
  let el := elapsed s now
  match a with
  | .startBtn =>
      if s.timer_running = false ∧ pyInt el = 0 then
        some ({ s with timer_running := true
                       timer_start := some now
                       timer_task_id := some sel
                       timer_subtask_id := some selSub
                       db_synced := true },
              save_active_timer store uid
                ⟨sel, some now, 0, true, uiMode, pomMins s, selSub⟩,
              logs)
      else none
  | .resumeBtn =>
      if s.timer_running = false ∧ pyInt el ≠ 0 then
        some ({ s with timer_running := true
                       timer_start := some now
                       db_synced := true },
              save_active_timer store uid
                ⟨s.timer_task_id.getD sel, some now, s.timer_paused_elapsed,
                 true, uiMode, pomMins s, s.timer_subtask_id.join⟩,
              logs)
      else none
  | .pauseBtn =>
      if s.timer_running = true then
        let current :=
          match s.timer_start with
          | some start => s.timer_paused_elapsed + (now - start)
          | none => s.timer_paused_elapsed
        some ({ s with timer_running := false
                       timer_paused_elapsed := current
                       timer_start := none },
              save_active_timer store uid
                ⟨s.timer_task_id.getD sel, none, current, false, uiMode,
                 pomMins s, s.timer_subtask_id.join⟩,
              logs)
      else none
  | .stopBtn =>
      if s.timer_running = true then
        let finalElapsed :=
          match s.timer_start with
          | some start => s.timer_paused_elapsed + (now - start)
          | none => s.timer_paused_elapsed
        some (doSave uid s store logs finalElapsed sel selSub today)
      else if pyInt el ≠ 0 then
        some (doSave uid s store logs s.timer_paused_elapsed sel selSub today)
      else none
  | .resetBtn =>
      if s.timer_running = false ∧ pyInt el ≠ 0 then
        some ({ s with timer_paused_elapsed := 0, db_synced := false },
              delete_active_timer store uid,
              logs)
      else none
  | .setMinutes custom =>
      if custom ≠ pomMins s then
        let s1 := { s with pomodoro_minutes := some custom }
        if s.timer_task_id ≠ none ∨ s.db_synced = true then
          some (s1,
                save_active_timer store uid
                  ⟨s.timer_task_id.getD sel, s.timer_start,
                   s.timer_paused_elapsed, s.timer_running, .pomodoro, custom,
                   s.timer_subtask_id.getD selSub⟩,
                logs)
        else some (s1, store, logs)
      else some (s, store, logs)

/-- The live display arithmetic of `js_timer_component` (source line 85):
`current = startElapsed + Math.floor((Date.now() - startTime) / 1000)` while
running, `startElapsed` otherwise; `tickMs` is the whole milliseconds since
the component rendered. -/
def js_current (startElapsed : ℤ) (isRunning : Bool) (tickMs : ℕ) : ℤ :=
  if isRunning then startElapsed + (tickMs / 1000 : ℕ) else startElapsed

/-- The pomodoro branch of `js_timer_component` (source line 91):
`remaining = Math.max(0, totalSeconds - current)`. -/
def js_remaining (totalSeconds current : ℤ) : ℤ :=
  max 0 (totalSeconds - current)

/-- The remaining time the dashboard reports for a pomodoro session: the
pomodoro branch of `_render_timer_dashboard` (source lines 379-387) passes
`elapsed_seconds = int(elapsed)`, `total_seconds = pomodoro_minutes * 60` and
the running flag into `js_timer_component`. -/
def pomodoro_remaining (s : TimerState) (now : ℚ) (tickMs : ℕ) : ℤ :=
  js_remaining ((pomMins s : ℤ) * 60)
    (js_current (pyInt (elapsed s now)) s.timer_running tickMs)

/-- The module-level function names defined in `src/database.py`, in source
order; the file's definitions end with `get_task_total_time`. -/
def databaseModuleDefs : List String :=
  ["_turso_api_url", "_turso_execute", "_turso_executescript",
   "get_connection", "init_db", "_query", "create_user",
   "get_user_by_username", "get_categories", "create_category",
   "update_category", "delete_category", "get_tasks", "create_task",
   "update_task", "delete_task", "get_subtasks", "create_subtask",
   "toggle_subtask", "delete_subtask", "update_subtask", "add_time_log",
   "get_time_logs", "delete_time_log", "get_daily_summary",
   "get_weekly_summary", "get_monthly_summary", "get_daily_trend",
   "get_task_total_time"]

/-- Python attribute access on the `database` module: a name that is not
bound at module level raises `AttributeError`. -/
def pyModuleGetattr (defs : List String) (name : String) : Except String String :=
  if name ∈ defs then .ok name else .error "AttributeError"

/-- The three session-store functions `pages_timer.py` calls on the
`database` module (source lines 159, 346, 413, 429, 447, 466, 488). -/
def timerStoreCalls : List String :=
  ["get_active_timer", "save_active_timer", "delete_active_timer"]


theorem find?_map_replace (uid : Nat) (snap : Snapshot) (store : Store) :
    (store.map (fun r => if r.1 = uid then (uid, snap) else r)).find?
        (fun r => r.1 = uid)
      = if store.any (fun r => r.1 = uid) then some (uid, snap) else none := by
  induction store with
  | nil => rfl
  | cons r t ih =>
      by_cases h : r.1 = uid
      · simp [h, List.find?]
      · rw [List.map_cons, if_neg h, List.find?_cons_of_neg _ (by simp [h]), ih,
          List.any_cons, decide_eq_false h, Bool.false_or]

theorem get_active_timer_save (store : Store) (uid : Nat) (snap : Snapshot) :
    get_active_timer (save_active_timer store uid snap) uid = some snap := by
  unfold get_active_timer save_active_timer
  by_cases h : store.any (fun r => r.1 = uid)
  · rw [if_pos h, find?_map_replace, if_pos h]
    rfl
  · rw [if_neg h]
    have hnone : store.find? (fun r => decide (r.1 = uid)) = none := by
      rw [List.find?_eq_none]
      intro x hx
      simp only [decide_eq_true_eq]
      intro hxe
      exact h (List.any_eq_true.mpr ⟨x, hx, by simp [hxe]⟩)
    rw [List.find?_append, hnone]
    simp [List.find?]

theorem get_active_timer_delete (store : Store) (uid : Nat) :
    get_active_timer (delete_active_timer store uid) uid = none := by
  unfold get_active_timer delete_active_timer
  rw [Option.map_eq_none', List.find?_eq_none]
  intro x hx
  have := List.of_mem_filter hx
  simp only [decide_eq_true_eq] at this ⊢
  exact fun he => (this he).elim

theorem keys_save_of_any (store : Store) (uid : Nat) (snap : Snapshot)
    (h : store.any (fun r => r.1 = uid) = true) :
    (save_active_timer store uid snap).map Prod.fst = store.map Prod.fst := by
  unfold save_active_timer
  rw [if_pos h, List.map_map]
  apply List.map_congr_left
  intro r _
  by_cases hr : r.1 = uid
  · simp [hr]
  · simp [hr]

theorem keys_nodup_save (store : Store) (uid : Nat) (snap : Snapshot)
    (h : (store.map Prod.fst).Nodup) :
    ((save_active_timer store uid snap).map Prod.fst).Nodup := by
  by_cases ha : store.any (fun r => r.1 = uid) = true
  · rw [keys_save_of_any store uid snap ha]
    exact h
  · unfold save_active_timer
    rw [if_neg ha, List.map_append]
    rw [List.nodup_append]
    refine ⟨h, List.nodup_singleton _, ?_⟩
    intro k hk hk1
    simp only [List.map_cons, List.map_nil, List.mem_singleton] at hk1
    subst hk1
    obtain ⟨r, hr, hre⟩ := List.mem_map.mp hk
    apply ha
    exact List.any_eq_true.mpr ⟨r, hr, by simp [hre]⟩

theorem keys_nodup_delete (store : Store) (uid : Nat)
    (h : (store.map Prod.fst).Nodup) :
    ((delete_active_timer store uid).map Prod.fst).Nodup := by
  unfold delete_active_timer
  exact List.Nodup.sublist (List.Sublist.map _ (List.filter_sublist _)) h

theorem save_active_timer_last_writer_wins (store : Store) (uid : Nat)
    (a b : Snapshot) :
    save_active_timer (save_active_timer store uid a) uid b
      = save_active_timer store uid b := by
  by_cases ha : store.any (fun r => r.1 = uid) = true
  · unfold save_active_timer
    rw [if_pos ha]
    have hmap : (store.map (fun r => if r.1 = uid then (uid, a) else r)).any
        (fun r => r.1 = uid) = true := by
      rw [List.any_map]
      obtain ⟨r, hr, hre⟩ := List.any_eq_true.mp ha
      refine List.any_eq_true.mpr ⟨r, hr, ?_⟩
      simp only [decide_eq_true_eq] at hre
      simp [Function.comp, hre]
    rw [if_pos hmap, if_pos ha, List.map_map]
    apply List.map_congr_left
    intro r _
    by_cases hr : r.1 = uid
    · simp [hr]
    · simp [hr]
  · unfold save_active_timer
    rw [if_neg ha]
    have happ : ((store ++ [(uid, a)]).any (fun r => r.1 = uid)) = true := by
      rw [List.any_append]
      simp
    rw [if_pos happ, if_neg ha, List.map_append]
    have hstore : store.map (fun r => if r.1 = uid then (uid, b) else r) = store := by
      conv_rhs => rw [← List.map_id store]
      apply List.map_congr_left
      intro r hr
      have : ¬ r.1 = uid := by
        intro he
        exact ha (List.any_eq_true.mpr ⟨r, hr, by simp [he]⟩)
      simp [this]
    rw [hstore]
    simp

theorem elapsed_not_running (s : TimerState) (now : ℚ)
    (h : s.timer_running = false) :
    elapsed s now = s.timer_paused_elapsed := by
  unfold elapsed
  rw [h]

theorem elapsed_running_some (s : TimerState) (now st : ℚ)
    (h : s.timer_running = true) (hs : s.timer_start = some st) :
    elapsed s now = s.timer_paused_elapsed + (now - st) := by
  unfold elapsed
  rw [h, hs]

theorem elapsed_running_none (s : TimerState) (now : ℚ)
    (h : s.timer_running = true) (hs : s.timer_start = none) :
    elapsed s now = s.timer_paused_elapsed := by
  unfold elapsed
  rw [h, hs]

theorem elapsed_congr (s t : TimerState) (now : ℚ)
    (h1 : s.timer_running = t.timer_running)
    (h2 : s.timer_start = t.timer_start)
    (h3 : s.timer_paused_elapsed = t.timer_paused_elapsed) :
    elapsed s now = elapsed t now := by
  unfold elapsed
  rw [h1, h2, h3]

theorem pyRoundHalfEven_abs_le (x : ℚ) :
    |(pyRoundHalfEven x : ℚ) - x| ≤ 1/2 := by
  have h1 : (⌊x⌋ : ℚ) ≤ x := Int.floor_le x
  have h2 : x < ⌊x⌋ + 1 := Int.lt_floor_add_one x
  unfold pyRoundHalfEven
  by_cases c1 : x - ⌊x⌋ < 1/2
  · rw [if_pos c1, abs_le]
    constructor <;> linarith
  · rw [if_neg c1]
    by_cases c2 : 1/2 < x - ⌊x⌋
    · rw [if_pos c2]
      push_cast
      rw [abs_le]
      constructor <;> linarith
    · rw [if_neg c2]
      by_cases c3 : Even ⌊x⌋
      · rw [if_pos c3, abs_le]
        constructor <;> linarith
      · rw [if_neg c3]
        push_cast
        rw [abs_le]
        constructor <;> linarith

theorem pyRound2_abs_le (x : ℚ) : |pyRound2 x - x| ≤ 1/200 := by
  unfold pyRound2
  have h := pyRoundHalfEven_abs_le (x * 100)
  rw [abs_le] at h ⊢
  obtain ⟨hl, hr⟩ := h
  constructor <;> [linarith; linarith]

/-- C1 (counterexample): the source's elapsed computation applies no
`max(0, ...)` clamp, so at a snapshot with `start_time = 100` and
`paused_elapsed = 5` read at `now = 90` it returns `-5`, not the claimed
`paused + max(0, now - start) = 5`. -/
theorem elapsed_no_clamp_cex :
    elapsed { timer_running := true, timer_start := some 100,
              timer_paused_elapsed := 5, timer_task_id := some 7,
              timer_subtask_id := some none, pomodoro_minutes := none,
              db_synced := true } 90
      ≠ 5 + max 0 ((90 : ℚ) - 100) := by
  have hmax : max (0 : ℚ) ((90 : ℚ) - 100) = 0 := max_eq_left (by norm_num)
  rw [hmax]
  norm_num [elapsed]

/-- C1 (amended): when the snapshot is not running, the elapsed time equals
`paused_elapsed_seconds` independently of `now`; when it is running with
`start_time` set, it equals `paused_elapsed_seconds + (now - start_time)`
with no clamping, which agrees with the spec's
`paused_elapsed_seconds + max(0, now - start_time)` whenever
`start_time ≤ now`. -/
theorem elapsed_characterization (s : TimerState) (now st : ℚ) :
    (s.timer_running = false → elapsed s now = s.timer_paused_elapsed) ∧
    (s.timer_running = true → s.timer_start = some st →
      elapsed s now = s.timer_paused_elapsed + (now - st)) ∧
    (s.timer_running = true → s.timer_start = some st → st ≤ now →
      elapsed s now = s.timer_paused_elapsed + max 0 (now - st)) := by
  refine ⟨fun h => elapsed_not_running s now h,
          fun h hs => elapsed_running_some s now st h hs,
          fun h hs hle => ?_⟩
  rw [elapsed_running_some s now st h hs,
      max_eq_right (by linarith : (0 : ℚ) ≤ now - st)]

theorem elapsed_characterization_witness :
    elapsed initTimerState 42 = 0 ∧
    elapsed { timer_running := true, timer_start := some 100,
              timer_paused_elapsed := 5, timer_task_id := some 7,
              timer_subtask_id := some none, pomodoro_minutes := none,
              db_synced := true } 130 = 5 + (130 - 100) ∧
    elapsed { timer_running := true, timer_start := some 100,
              timer_paused_elapsed := 5, timer_task_id := some 7,
              timer_subtask_id := some none, pomodoro_minutes := none,
              db_synced := true } 130 = 5 + max 0 ((130 : ℚ) - 100) := by
  refine ⟨(elapsed_characterization initTimerState 42 0).1 rfl,
          (elapsed_characterization _ 130 100).2.1 rfl rfl,
          (elapsed_characterization _ 130 100).2.2 rfl rfl (by norm_num)⟩

/-- C2: the state reconstructed by the DB-sync block of `render_timer_page`
is a pure function of the persisted snapshot: every timer field comes from
the row, so the elapsed time recomputed after a restart agrees with the
elapsed time of any session state that the snapshot captured; with no row
the fresh session is idle with elapsed 0. -/
theorem recovery_from_snapshot (s : TimerState) (snap : Snapshot)
    (store : Store) (uid : Nat) (now : ℚ)
    (h1 : s.timer_running = snap.is_running)
    (h2 : s.timer_start = snap.start_time)
    (h3 : s.timer_paused_elapsed = snap.paused_elapsed) :
    freshLoad (save_active_timer store uid snap) uid = syncFromDb (some snap) ∧
    elapsed (syncFromDb (some snap)) now = elapsed s now ∧
    (syncFromDb (some snap)).timer_running = snap.is_running ∧
    (syncFromDb (some snap)).timer_start = snap.start_time ∧
    (syncFromDb (some snap)).timer_paused_elapsed = snap.paused_elapsed ∧
    (syncFromDb (some snap)).timer_task_id = some snap.task_id ∧
    (syncFromDb (some snap)).timer_subtask_id = some snap.subtask_id ∧
    (syncFromDb (some snap)).pomodoro_minutes = some snap.pomodoro_minutes ∧
    freshLoad [] uid = initTimerState ∧
    elapsed (freshLoad [] uid) now = 0 := by
  refine ⟨?_, ?_, rfl, rfl, rfl, rfl, rfl, rfl, rfl, rfl⟩
  · unfold freshLoad
    rw [get_active_timer_save]
  · exact elapsed_congr (syncFromDb (some snap)) s now
      (by rw [h1]; rfl) (by rw [h2]; rfl) (by rw [h3]; rfl)

theorem recovery_from_snapshot_witness :
    elapsed (syncFromDb (some ⟨7, some 1000, 0, true, .stopwatch, 25, none⟩))
        1090 = 90 ∧
    freshLoad [] 1 = initTimerState := by
  have h := recovery_from_snapshot
    { timer_running := true, timer_start := some 1000,
      timer_paused_elapsed := 0, timer_task_id := some 7,
      timer_subtask_id := some none, pomodoro_minutes := some 25,
      db_synced := true }
    ⟨7, some 1000, 0, true, .stopwatch, 25, none⟩ [] 1 1090 rfl rfl rfl
  refine ⟨h.2.1.trans ?_, h.2.2.2.2.2.2.2.2.1⟩
  norm_num [elapsed]

/-- C3 (counterexample): from the state reached by running 125 s, pausing,
resuming, and running 60 s more, Stop logs `round(185/60, 2) = 3.08` minutes
(`77/25`), not the exact `185/60 = 3.0833...` the claim states. -/
theorem stop_duration_rounding_cex :
    timerStep 1
        { timer_running := true, timer_start := some 200,
          timer_paused_elapsed := 125, timer_task_id := some 7,
          timer_subtask_id := some none, pomodoro_minutes := none,
          db_synced := true }
        [(1, ⟨7, some 200, 125, true, .stopwatch, 25, none⟩)] []
        .stopBtn 260 7 none .stopwatch "2024-01-01"
      = some ({ timer_running := false, timer_start := none,
                timer_paused_elapsed := 0, timer_task_id := some 7,
                timer_subtask_id := some none, pomodoro_minutes := none,
                db_synced := false },
              [],
              [{ user_id := 1, task_id := 7, subtask_id := none,
                 duration_minutes := 77/25, log_date := "2024-01-01",
                 note := "Timer session", source := "timer" }]) ∧
    (77 : ℚ)/25 ≠ 185/60 := by
  constructor
  · simp only [timerStep, doSave, delete_active_timer, if_pos rfl]
    norm_num [pyRound2, pyRoundHalfEven, List.filter]
  · norm_num

/-- C3 (amended): for every Running or Paused session, Stop computes
`final_elapsed = elapsed(snapshot, now)`, appends exactly one time-log entry
whose duration is `round(final_elapsed/60, 2)` minutes — within `1/200` of a
minute of the exact `final_elapsed/60`, with no minimum-one-unit rounding —
resets the session timer fields, and deletes the snapshot. -/
theorem stop_appends_rounded_entry (uid : Nat) (s : TimerState) (store : Store)
    (logs : List TimeLogEntry) (now : ℚ) (sel : Nat) (selSub : Option Nat)
    (uiMode : Mode) (today : String)
    (h : s.timer_running = true ∨ pyInt (elapsed s now) ≠ 0) :
    timerStep uid s store logs .stopBtn now sel selSub uiMode today
      = some ({ s with timer_running := false, timer_start := none,
                       timer_paused_elapsed := 0, db_synced := false },
              delete_active_timer store uid,
              logs ++ [{ user_id := uid, task_id := s.timer_task_id.getD sel,
                         subtask_id := s.timer_subtask_id.getD selSub,
                         duration_minutes := pyRound2 (elapsed s now / 60),
                         log_date := today, note := "Timer session",
                         source := "timer" }]) ∧
    get_active_timer (delete_active_timer store uid) uid = none ∧
    |pyRound2 (elapsed s now / 60) - elapsed s now / 60| ≤ 1/200 := by
  refine ⟨?_, get_active_timer_delete store uid, pyRound2_abs_le _⟩
  by_cases hr : s.timer_running = true
  · simp only [timerStep, if_pos hr]
    cases hst : s.timer_start with
    | none => rw [elapsed_running_none s now hr hst]; rfl
    | some st => rw [elapsed_running_some s now st hr hst]; rfl
  · have hr' : s.timer_running = false := by
      cases hb : s.timer_running
      · rfl
      · exact absurd hb hr
    have hne : pyInt (elapsed s now) ≠ 0 := h.resolve_left hr
    simp only [timerStep, if_neg hr, if_pos hne]
    rw [elapsed_not_running s now hr']
    rfl

theorem stop_appends_rounded_entry_witness :
    timerStep 1
        { timer_running := false, timer_start := none,
          timer_paused_elapsed := 30, timer_task_id := some 7,
          timer_subtask_id := some none, pomodoro_minutes := none,
          db_synced := true } [] [] .stopBtn 999 7 none .stopwatch "2024-01-02"
      = some ({ timer_running := false, timer_start := none,
                timer_paused_elapsed := 0, timer_task_id := some 7,
                timer_subtask_id := some none, pomodoro_minutes := none,
                db_synced := false },
              [],
              [{ user_id := 1, task_id := 7, subtask_id := none,
                 duration_minutes := 1/2, log_date := "2024-01-02",
                 note := "Timer session", source := "timer" }]) := by
  have h := stop_appends_rounded_entry 1
    { timer_running := false, timer_start := none,
      timer_paused_elapsed := 30, timer_task_id := some 7,
      timer_subtask_id := some none, pomodoro_minutes := none,
      db_synced := true } [] [] 999 7 none .stopwatch "2024-01-02"
    (Or.inr (by norm_num [elapsed, pyInt]))
  rw [h.1]
  norm_num [elapsed, pyRound2, pyRoundHalfEven, delete_active_timer]

/-- C4: from a Running session, Pause flushes the elapsed time computed at
the pause instant into `paused_elapsed`, clears the running flag and the
start time, and persists exactly that snapshot (readable back from the
store). -/
theorem pause_flushes_elapsed (uid : Nat) (s : TimerState) (store : Store)
    (logs : List TimeLogEntry) (now : ℚ) (sel : Nat) (selSub : Option Nat)
    (uiMode : Mode) (today : String)
    (h : s.timer_running = true) :
    timerStep uid s store logs .pauseBtn now sel selSub uiMode today
      = some ({ s with timer_running := false,
                       timer_paused_elapsed := elapsed s now,
                       timer_start := none },
              save_active_timer store uid
                ⟨s.timer_task_id.getD sel, none, elapsed s now, false, uiMode,
                 pomMins s, s.timer_subtask_id.join⟩,
              logs) ∧
    get_active_timer
        (save_active_timer store uid
          ⟨s.timer_task_id.getD sel, none, elapsed s now, false, uiMode,
           pomMins s, s.timer_subtask_id.join⟩) uid
      = some ⟨s.timer_task_id.getD sel, none, elapsed s now, false, uiMode,
              pomMins s, s.timer_subtask_id.join⟩ := by
  refine ⟨?_, get_active_timer_save _ _ _⟩
  simp only [timerStep, if_pos h]
  cases hst : s.timer_start with
  | none => rw [elapsed_running_none s now h hst]
  | some st => rw [elapsed_running_some s now st h hst]

theorem pause_flushes_elapsed_witness :
    timerStep 1
        { timer_running := true, timer_start := some 100,
          timer_paused_elapsed := 5, timer_task_id := some 7,
          timer_subtask_id := some none, pomodoro_minutes := none,
          db_synced := true } [] [] .pauseBtn 160 7 none .stopwatch "2024-01-03"
      = some ({ timer_running := false, timer_start := none,
                timer_paused_elapsed := 65, timer_task_id := some 7,
                timer_subtask_id := some none, pomodoro_minutes := none,
                db_synced := true },
              [(1, ⟨7, none, 65, false, .stopwatch, 25, none⟩)],
              []) := by
  have h := pause_flushes_elapsed 1
    { timer_running := true, timer_start := some 100,
      timer_paused_elapsed := 5, timer_task_id := some 7,
      timer_subtask_id := some none, pomodoro_minutes := none,
      db_synced := true } [] [] 160 7 none .stopwatch "2024-01-03" rfl
  rw [h.1]
  norm_num [elapsed, save_active_timer, pomMins]

/-- C5: from a Paused session, Resume sets `start_time := now` and
`is_running := true`, leaves `paused_elapsed` and the session's task and
subtask ids unchanged, and persists a snapshot carrying the unchanged
`paused_elapsed`. -/
theorem resume_preserves_paused_elapsed (uid : Nat) (s : TimerState)
    (store : Store) (logs : List TimeLogEntry) (now : ℚ) (sel : Nat)
    (selSub : Option Nat) (uiMode : Mode) (today : String)
    (h1 : s.timer_running = false) (h2 : pyInt (elapsed s now) ≠ 0) :
    timerStep uid s store logs .resumeBtn now sel selSub uiMode today
      = some ({ s with timer_running := true, timer_start := some now,
                       db_synced := true },
              save_active_timer store uid
                ⟨s.timer_task_id.getD sel, some now, s.timer_paused_elapsed,
                 true, uiMode, pomMins s, s.timer_subtask_id.join⟩,
              logs) ∧
    ({ s with timer_running := true, timer_start := some now,
              db_synced := true } : TimerState).timer_paused_elapsed
      = s.timer_paused_elapsed ∧
    ({ s with timer_running := true, timer_start := some now,
              db_synced := true } : TimerState).timer_task_id
      = s.timer_task_id ∧
    ({ s with timer_running := true, timer_start := some now,
              db_synced := true } : TimerState).timer_subtask_id
      = s.timer_subtask_id ∧
    get_active_timer
        (save_active_timer store uid
          ⟨s.timer_task_id.getD sel, some now, s.timer_paused_elapsed, true,
           uiMode, pomMins s, s.timer_subtask_id.join⟩) uid
      = some ⟨s.timer_task_id.getD sel, some now, s.timer_paused_elapsed,
              true, uiMode, pomMins s, s.timer_subtask_id.join⟩ := by
  refine ⟨?_, rfl, rfl, rfl, get_active_timer_save _ _ _⟩
  have hfalse : (s.timer_running = false ∧ pyInt (elapsed s now) ≠ 0) :=
    ⟨h1, h2⟩
  simp only [timerStep, if_pos hfalse]

theorem resume_preserves_paused_elapsed_witness :
    timerStep 1
        { timer_running := false, timer_start := none,
          timer_paused_elapsed := 125, timer_task_id := some 7,
          timer_subtask_id := some none, pomodoro_minutes := none,
          db_synced := true } [] [] .resumeBtn 200 7 none .stopwatch
        "2024-01-04"
      = some ({ timer_running := true, timer_start := some 200,
                timer_paused_elapsed := 125, timer_task_id := some 7,
                timer_subtask_id := some none, pomodoro_minutes := none,
                db_synced := true },
              [(1, ⟨7, some 200, 125, true, .stopwatch, 25, none⟩)],
              []) := by
  have h := resume_preserves_paused_elapsed 1
    { timer_running := false, timer_start := none,
      timer_paused_elapsed := 125, timer_task_id := some 7,
      timer_subtask_id := some none, pomodoro_minutes := none,
      db_synced := true } [] [] 200 7 none .stopwatch "2024-01-04" rfl
    (by norm_num [elapsed, pyInt])
  rw [h.1]
  norm_num [save_active_timer, pomMins]

/-- C6 (counterexample): Start is guarded only by the in-memory session
state.  With an idle session but a store already holding a running snapshot
for user 1, pressing Start succeeds — no `AlreadyRunning` failure — and the
upsert silently overwrites the existing running snapshot. -/
theorem start_overwrites_running_snapshot_cex :
    get_active_timer [(1, ⟨3, some 100, 0, true, .stopwatch, 25, none⟩)] 1
      = some ⟨3, some 100, 0, true, .stopwatch, 25, none⟩ ∧
    timerStep 1 initTimerState
        [(1, ⟨3, some 100, 0, true, .stopwatch, 25, none⟩)] [] .startBtn 500 7
        none .stopwatch "2024-01-05"
      = some ({ timer_running := true, timer_start := some 500,
                timer_paused_elapsed := 0, timer_task_id := some 7,
                timer_subtask_id := some none, pomodoro_minutes := none,
                db_synced := true },
              [(1, ⟨7, some 500, 0, true, .stopwatch, 25, none⟩)],
              []) ∧
    (⟨7, some 500, 0, true, Mode.stopwatch, 25, none⟩ : Snapshot)
      ≠ ⟨3, some 100, 0, true, Mode.stopwatch, 25, none⟩ := by
  refine ⟨rfl, ?_, by simp⟩
  norm_num [timerStep, elapsed, pyInt, initTimerState, save_active_timer,
    pomMins, List.any_cons]

/-- C6 (amended): the Start control is rendered only when the session state
shows no running timer and zero truncated elapsed time; in every other
session state the start call is impossible (`none`) — the code signals no
`AlreadyRunning` or `InvalidTask` error value.  When the session-state guard
passes, Start creates the snapshot via upsert over whatever row the store
holds for the user (last-writer-wins), never failing. -/
theorem start_guard_characterization (uid : Nat) (s : TimerState)
    (store : Store) (logs : List TimeLogEntry) (now : ℚ) (sel : Nat)
    (selSub : Option Nat) (uiMode : Mode) (today : String) :
    (s.timer_running = true →
      timerStep uid s store logs .startBtn now sel selSub uiMode today
        = none) ∧
    (s.timer_running = false → pyInt (elapsed s now) ≠ 0 →
      timerStep uid s store logs .startBtn now sel selSub uiMode today
        = none) ∧
    (s.timer_running = false → pyInt (elapsed s now) = 0 →
      timerStep uid s store logs .startBtn now sel selSub uiMode today
        = some ({ s with timer_running := true, timer_start := some now,
                         timer_task_id := some sel,
                         timer_subtask_id := some selSub, db_synced := true },
                save_active_timer store uid
                  ⟨sel, some now, 0, true, uiMode, pomMins s, selSub⟩,
                logs) ∧
      get_active_timer
          (save_active_timer store uid
            ⟨sel, some now, 0, true, uiMode, pomMins s, selSub⟩) uid
        = some ⟨sel, some now, 0, true, uiMode, pomMins s, selSub⟩) := by
  refine ⟨fun h => ?_, fun h1 h2 => ?_, fun h1 h2 => ⟨?_, get_active_timer_save _ _ _⟩⟩
  · simp only [timerStep]
    rw [if_neg]
    rintro ⟨hf, -⟩
    rw [h] at hf
    exact Bool.noConfusion hf
  · simp only [timerStep]
    rw [if_neg]
    rintro ⟨-, hz⟩
    exact h2 hz
  · simp only [timerStep, if_pos (And.intro h1 h2)]

theorem start_guard_characterization_witness :
    timerStep 1
        { timer_running := true, timer_start := some 100,
          timer_paused_elapsed := 0, timer_task_id := some 3,
          timer_subtask_id := some none, pomodoro_minutes := none,
          db_synced := true } [] [] .startBtn 500 7 none .stopwatch
        "2024-01-06" = none ∧
    timerStep 1 initTimerState [] [] .startBtn 0 7 none .stopwatch "2024-01-06"
      = some ({ timer_running := true, timer_start := some 0,
                timer_paused_elapsed := 0, timer_task_id := some 7,
                timer_subtask_id := some none, pomodoro_minutes := none,
                db_synced := true },
              [(1, ⟨7, some 0, 0, true, .stopwatch, 25, none⟩)],
              []) := by
  constructor
  · exact (start_guard_characterization 1 _ [] [] 500 7 none .stopwatch
      "2024-01-06").1 rfl
  · have h := (start_guard_characterization 1 initTimerState [] [] 0 7 none
      .stopwatch "2024-01-06").2.2 rfl (by norm_num [elapsed, pyInt,
        initTimerState])
    rw [h.1]
    norm_num [save_active_timer, pomMins, initTimerState]

/-- C7 (counterexample): the dashboard reports pomodoro remaining time from
the truncated elapsed seconds `int(elapsed)`.  At a running session read
10.5 s in with a 25-minute target it reports 1490, while the claim's
`max(0, target*60 - elapsed(snapshot, now))` is 1489.5. -/
theorem pomodoro_remaining_truncation_cex :
    ((pomodoro_remaining
        { timer_running := true, timer_start := some 0,
          timer_paused_elapsed := 0, timer_task_id := some 3,
          timer_subtask_id := some none, pomodoro_minutes := some 25,
          db_synced := true } (21/2) 0 : ℤ) : ℚ)
      ≠ max 0 ((25 : ℚ) * 60
          - elapsed
              { timer_running := true, timer_start := some 0,
                timer_paused_elapsed := 0, timer_task_id := some 3,
                timer_subtask_id := some none, pomodoro_minutes := some 25,
                db_synced := true } (21/2)) := by
  have hel : elapsed
      { timer_running := true, timer_start := some 0,
        timer_paused_elapsed := 0, timer_task_id := some 3,
        timer_subtask_id := some none, pomodoro_minutes := some 25,
        db_synced := true } (21/2) = 21/2 := by
    norm_num [elapsed]
  rw [hel]
  have hmax : max (0 : ℚ) ((25 : ℚ) * 60 - 21/2) = 2979/2 :=
    (max_eq_right (by norm_num)).trans (by norm_num)
  rw [hmax]
  have hl : pomodoro_remaining
      { timer_running := true, timer_start := some 0,
        timer_paused_elapsed := 0, timer_task_id := some 3,
        timer_subtask_id := some none, pomodoro_minutes := some 25,
        db_synced := true } (21/2) 0 = 1490 := by
    have hint : pyInt (21/2 : ℚ) = 10 := by norm_num [pyInt]
    simp only [pomodoro_remaining, js_current, js_remaining, hel, hint,
      pomMins, Option.getD]
    norm_num
  rw [hl]
  norm_num

/-- C7 (amended): for a Running pomodoro session the reported remaining time
is `max(0, target_minutes*60 - int(elapsed(snapshot, now)))`, which equals
the claim's `max(0, target_minutes*60 - elapsed(snapshot, now))` whenever
the elapsed time is a whole number of seconds; and when remaining reaches 0
nothing auto-transitions: while running, Start, Resume and Reset are
impossible, and the only interactions that leave the Running state are Pause
and Stop. -/
theorem pomodoro_remaining_no_auto_transition (uid : Nat) (s : TimerState)
    (store : Store) (logs : List TimeLogEntry) (a : TimerAction) (now : ℚ)
    (sel : Nat) (selSub : Option Nat) (uiMode : Mode) (today : String)
    (h : s.timer_running = true) :
    pomodoro_remaining s now 0
      = max 0 ((pomMins s : ℤ) * 60 - pyInt (elapsed s now)) ∧
    (elapsed s now = (pyInt (elapsed s now) : ℚ) →
      ((pomodoro_remaining s now 0 : ℤ) : ℚ)
        = max 0 ((pomMins s : ℚ) * 60 - elapsed s now)) ∧
    timerStep uid s store logs .startBtn now sel selSub uiMode today = none ∧
    timerStep uid s store logs .resumeBtn now sel selSub uiMode today
      = none ∧
    timerStep uid s store logs .resetBtn now sel selSub uiMode today = none ∧
    (∀ s1 store1 logs1,
      timerStep uid s store logs a now sel selSub uiMode today
        = some (s1, store1, logs1) →
      s1.timer_running = false → a = .pauseBtn ∨ a = .stopBtn) := by
  have hform : pomodoro_remaining s now 0
      = max 0 ((pomMins s : ℤ) * 60 - pyInt (elapsed s now)) := by
    simp [pomodoro_remaining, js_current, js_remaining, h]
  have hguard : ¬ (s.timer_running = false ∧ pyInt (elapsed s now) = 0) := by
    rintro ⟨hf, -⟩
    rw [h] at hf
    exact Bool.noConfusion hf
  have hguard2 : ¬ (s.timer_running = false ∧ pyInt (elapsed s now) ≠ 0) := by
    rintro ⟨hf, -⟩
    rw [h] at hf
    exact Bool.noConfusion hf
  refine ⟨hform, fun hwhole => ?_, ?_, ?_, ?_, ?_⟩
  · rw [hform]
    push_cast
    rw [← hwhole]
  · simp only [timerStep]
    exact if_neg hguard
  · simp only [timerStep]
    exact if_neg hguard2
  · simp only [timerStep]
    exact if_neg hguard2
  · intro s1 store1 logs1 hstep hrun
    cases a with
    | startBtn =>
        simp only [timerStep, if_neg hguard] at hstep
        exact Option.noConfusion hstep
    | resumeBtn =>
        simp only [timerStep, if_neg hguard2] at hstep
        exact Option.noConfusion hstep
    | resetBtn =>
        simp only [timerStep, if_neg hguard2] at hstep
        exact Option.noConfusion hstep
    | pauseBtn => exact Or.inl rfl
    | stopBtn => exact Or.inr rfl
    | setMinutes custom =>
        exfalso
        simp only [timerStep] at hstep
        by_cases hc : custom ≠ pomMins s
        · rw [if_pos hc] at hstep
          by_cases hp : s.timer_task_id ≠ none ∨ s.db_synced = true
          · rw [if_pos hp] at hstep
            simp only [Option.some.injEq, Prod.mk.injEq] at hstep
            have hs1 : s1.timer_running = s.timer_running := by
              rw [← hstep.1]
            rw [hrun, h] at hs1
            exact Bool.noConfusion hs1
          · rw [if_neg hp] at hstep
            simp only [Option.some.injEq, Prod.mk.injEq] at hstep
            have hs1 : s1.timer_running = s.timer_running := by
              rw [← hstep.1]
            rw [hrun, h] at hs1
            exact Bool.noConfusion hs1
        · rw [if_neg hc] at hstep
          simp only [Option.some.injEq, Prod.mk.injEq] at hstep
          have hs1 : s1.timer_running = s.timer_running := by
            rw [← hstep.1]
          rw [hrun, h] at hs1
          exact Bool.noConfusion hs1

theorem pomodoro_remaining_no_auto_transition_witness :
    pomodoro_remaining
        { timer_running := true, timer_start := some 0,
          timer_paused_elapsed := 0, timer_task_id := some 3,
          timer_subtask_id := some none, pomodoro_minutes := some 25,
          db_synced := true } 1500 0 = 0 ∧
    timerStep 1
        { timer_running := true, timer_start := some 0,
          timer_paused_elapsed := 0, timer_task_id := some 3,
          timer_subtask_id := some none, pomodoro_minutes := some 25,
          db_synced := true } [] [] .resetBtn 1500 3 none .pomodoro
        "2024-01-07" = none := by
  have h := pomodoro_remaining_no_auto_transition 1
    { timer_running := true, timer_start := some 0,
      timer_paused_elapsed := 0, timer_task_id := some 3,
      timer_subtask_id := some none, pomodoro_minutes := some 25,
      db_synced := true } [] [] (.setMinutes 30) 1500 3 none .pomodoro
    "2024-01-07" rfl
  refine ⟨h.1.trans ?_, h.2.2.2.2.1⟩
  have hint : pyInt (elapsed
      { timer_running := true, timer_start := some 0,
        timer_paused_elapsed := 0, timer_task_id := some 3,
        timer_subtask_id := some none, pomodoro_minutes := some 25,
        db_synced := true } 1500) = 1500 := by
    norm_num [elapsed, pyInt]
  rw [hint]
  norm_num [pomMins]

/-- C8: from a Paused session, Reset zeroes the accumulated elapsed time,
deletes the snapshot, and — unlike Stop — appends nothing to the time log:
the resulting session reports elapsed 0 at every later instant. -/
theorem reset_discards_without_logging (uid : Nat) (s : TimerState)
    (store : Store) (logs : List TimeLogEntry) (now : ℚ) (sel : Nat)
    (selSub : Option Nat) (uiMode : Mode) (today : String)
    (h1 : s.timer_running = false) (h2 : pyInt (elapsed s now) ≠ 0) :
    timerStep uid s store logs .resetBtn now sel selSub uiMode today
      = some ({ s with timer_paused_elapsed := 0, db_synced := false },
              delete_active_timer store uid, logs) ∧
    (∀ t, elapsed
        ({ s with timer_paused_elapsed := 0, db_synced := false }) t = 0) ∧
    get_active_timer (delete_active_timer store uid) uid = none := by
  refine ⟨?_, fun t => ?_, get_active_timer_delete store uid⟩
  · simp only [timerStep]
    exact if_pos ⟨h1, h2⟩
  · exact elapsed_not_running _ t h1

theorem reset_discards_without_logging_witness :
    timerStep 1
        { timer_running := false, timer_start := none,
          timer_paused_elapsed := 400, timer_task_id := some 7,
          timer_subtask_id := some none, pomodoro_minutes := none,
          db_synced := true }
        [(1, ⟨7, none, 400, false, .stopwatch, 25, none⟩)] [] .resetBtn 900 7
        none .stopwatch "2024-01-08"
      = some ({ timer_running := false, timer_start := none,
                timer_paused_elapsed := 0, timer_task_id := some 7,
                timer_subtask_id := some none, pomodoro_minutes := none,
                db_synced := false },
              [], []) := by
  have h := reset_discards_without_logging 1
    { timer_running := false, timer_start := none,
      timer_paused_elapsed := 400, timer_task_id := some 7,
      timer_subtask_id := some none, pomodoro_minutes := none,
      db_synced := true }
    [(1, ⟨7, none, 400, false, .stopwatch, 25, none⟩)] [] 900 7 none
    .stopwatch "2024-01-08" rfl (by norm_num [elapsed, pyInt])
  rw [h.1]
  norm_num [delete_active_timer, List.filter]

theorem timerStep_store_shape (uid : Nat) (s : TimerState) (store : Store)
    (logs : List TimeLogEntry) (a : TimerAction) (now : ℚ) (sel : Nat)
    (selSub : Option Nat) (uiMode : Mode) (today : String)
    (s1 : TimerState) (store1 : Store) (logs1 : List TimeLogEntry)
    (hstep : timerStep uid s store logs a now sel selSub uiMode today
      = some (s1, store1, logs1)) :
    (∃ snap, store1 = save_active_timer store uid snap) ∨
    store1 = delete_active_timer store uid ∨ store1 = store := by
  cases a with
  | startBtn =>
      simp only [timerStep] at hstep
      split at hstep
      · simp only [Option.some.injEq, Prod.mk.injEq] at hstep
        exact Or.inl ⟨_, hstep.2.1.symm⟩
      · exact Option.noConfusion hstep
  | resumeBtn =>
      simp only [timerStep] at hstep
      split at hstep
      · simp only [Option.some.injEq, Prod.mk.injEq] at hstep
        exact Or.inl ⟨_, hstep.2.1.symm⟩
      · exact Option.noConfusion hstep
  | pauseBtn =>
      simp only [timerStep] at hstep
      split at hstep
      · simp only [Option.some.injEq, Prod.mk.injEq] at hstep
        exact Or.inl ⟨_, hstep.2.1.symm⟩
      · exact Option.noConfusion hstep
  | stopBtn =>
      simp only [timerStep, doSave] at hstep
      split at hstep
      · simp only [Option.some.injEq, Prod.mk.injEq] at hstep
        exact Or.inr (Or.inl hstep.2.1.symm)
      · split at hstep
        · simp only [Option.some.injEq, Prod.mk.injEq] at hstep
          exact Or.inr (Or.inl hstep.2.1.symm)
        · exact Option.noConfusion hstep
  | resetBtn =>
      simp only [timerStep] at hstep
      split at hstep
      · simp only [Option.some.injEq, Prod.mk.injEq] at hstep
        exact Or.inr (Or.inl hstep.2.1.symm)
      · exact Option.noConfusion hstep
  | setMinutes custom =>
      simp only [timerStep] at hstep
      split at hstep
      · split at hstep
        · simp only [Option.some.injEq, Prod.mk.injEq] at hstep
          exact Or.inl ⟨_, hstep.2.1.symm⟩
        · simp only [Option.some.injEq, Prod.mk.injEq] at hstep
          exact Or.inr (Or.inr hstep.2.1.symm)
      · simp only [Option.some.injEq, Prod.mk.injEq] at hstep
        exact Or.inr (Or.inr hstep.2.1.symm)

/-- C9: with at most one store row per user (pairwise distinct user keys),
every dashboard interaction preserves that invariant, because every
persisting transition writes through the upsert `save_active_timer` (or the
delete); a repeated start/save for the same user overwrites the single row —
last writer wins — and the saved snapshot is what a load then returns. -/
theorem at_most_one_snapshot_per_user (uid : Nat) (s : TimerState)
    (store : Store) (logs : List TimeLogEntry) (a : TimerAction) (now : ℚ)
    (sel : Nat) (selSub : Option Nat) (uiMode : Mode) (today : String)
    (s1 : TimerState) (store1 : Store) (logs1 : List TimeLogEntry)
    (x y : Snapshot)
    (hnd : (store.map Prod.fst).Nodup)
    (hstep : timerStep uid s store logs a now sel selSub uiMode today
      = some (s1, store1, logs1)) :
    (store1.map Prod.fst).Nodup ∧
    save_active_timer (save_active_timer store uid x) uid y
      = save_active_timer store uid y ∧
    get_active_timer (save_active_timer store uid x) uid = some x := by
  refine ⟨?_, save_active_timer_last_writer_wins store uid x y,
    get_active_timer_save store uid x⟩
  rcases timerStep_store_shape uid s store logs a now sel selSub uiMode today
    s1 store1 logs1 hstep with ⟨snap, rfl⟩ | rfl | rfl
  · exact keys_nodup_save store uid snap hnd
  · exact keys_nodup_delete store uid hnd
  · exact hnd

theorem at_most_one_snapshot_per_user_witness :
    (([(1, (⟨7, some 0, 0, true, Mode.stopwatch, 25, none⟩ : Snapshot))].map
        Prod.fst).Nodup) ∧
    save_active_timer
        (save_active_timer [] 1 ⟨3, some 5, 0, true, .stopwatch, 25, none⟩) 1
        ⟨4, some 9, 2, false, .pomodoro, 45, none⟩
      = save_active_timer [] 1 ⟨4, some 9, 2, false, .pomodoro, 45, none⟩ ∧
    get_active_timer
        (save_active_timer [] 1 ⟨3, some 5, 0, true, .stopwatch, 25, none⟩) 1
      = some ⟨3, some 5, 0, true, .stopwatch, 25, none⟩ := by
  have hstep : timerStep 1 initTimerState [] [] .startBtn 0 7 none .stopwatch
      "2024-01-09"
      = some ({ timer_running := true, timer_start := some 0,
                timer_paused_elapsed := 0, timer_task_id := some 7,
                timer_subtask_id := some none, pomodoro_minutes := none,
                db_synced := true },
              [(1, ⟨7, some 0, 0, true, .stopwatch, 25, none⟩)],
              []) := by
    norm_num [timerStep, elapsed, pyInt, initTimerState, save_active_timer,
      pomMins]
  exact at_most_one_snapshot_per_user 1 initTimerState [] [] .startBtn 0 7
    none .stopwatch "2024-01-09" _ _ _
    ⟨3, some 5, 0, true, .stopwatch, 25, none⟩
    ⟨4, some 9, 2, false, .pomodoro, 45, none⟩ (by simp) hstep

/-- C10: the `database` module defines no `get_active_timer`,
`save_active_timer` or `delete_active_timer` — its definitions end with
`get_task_total_time` — so Python attribute access for each of the three
session-store functions the timer page calls raises `AttributeError`. -/
theorem database_missing_timer_store_fns :
    pyModuleGetattr databaseModuleDefs "get_active_timer"
      = .error "AttributeError" ∧
    pyModuleGetattr databaseModuleDefs "save_active_timer"
      = .error "AttributeError" ∧
    pyModuleGetattr databaseModuleDefs "delete_active_timer"
      = .error "AttributeError" ∧
    timerStoreCalls
      = ["get_active_timer", "save_active_timer", "delete_active_timer"] ∧
    databaseModuleDefs.getLast? = some "get_task_total_time" := by
  exact ⟨rfl, rfl, rfl, rfl, rfl⟩
